import Mathlib

/-
Verification development for the rackspace salt plugin pair:
  salt/_modules/rackspace.py  (execution module, namespace `Modules`)
  salt/_states/rackspace.py   (state module, namespace `States`)

The provider (Rackspace via the pyrax SDK) is modelled as explicit pure
state (`DnsState`, `CfState`, `DbState`).  Python exceptions are modelled
with `Except PErr`.  Python keyword arguments that can be absent, present
with value None, or present with a value are modelled as
`Option (Option α)` (outer layer: key presence, inner layer: None vs value);
plain optional parameters defaulting to None/False are `Option α`.
The code targets Python 2 (six / e.message / u-literals): `None < 300`
evaluates to True there, which `py2_lt_int` models.
Every provider-mutating call (create/update) is logged in a `Mut` trace.
-/

deriving instance DecidableEq for Except

namespace Rackspace

/-- ASCII upper-casing, as Python's str.upper on the identifiers involved
(record types are ASCII); written over the character list so it evaluates
in the kernel. -/
def pyUpper (s : String) : String := ⟨s.data.map Char.toUpper⟩

/-- Python / pyrax exceptions relevant to the two files.  `notFound` stands
for the lookup-miss exception of each driver (exc.NotFound for DNS,
exc.NoSuchContainer for cloud files). -/
inductive PErr where
  | notFound : PErr
  | notUnique : PErr
  | typeErr (msg : String) : PErr
  | valueErr (msg : String) : PErr
  | clientErr (msg : String) : PErr
deriving DecidableEq, Repr

/-- One provider-mutating round trip (create or update). -/
inductive Mut where
  | zoneCreate (name : String) : Mut
  | zoneUpdate (name : String) : Mut
  | recordAdd (zone_name : String) : Mut
  | recordUpdate (zone_name : String) : Mut
  | instanceCreate (name : String) : Mut
  | containerCreate (name : String) : Mut
  | containerUpdate (name : String) : Mut
deriving DecidableEq, Repr

/-- Result of running a (possibly raising) function against provider state:
the returned value or propagated exception, the post state, and the trace of
mutating provider calls made. -/
structure Res (σ : Type) (α : Type) where
  out : Except PErr α
  st : σ
  muts : List Mut

/-- A DNS zone as held by the provider (CloudDNSDomain): name, emailAddress
(a Python value, possibly None after an update with emailAddress=None), ttl. -/
structure Zone where
  name : String
  email : Option String
  ttl : Int
deriving DecidableEq, Repr

/-- A DNS record as held by the provider (CloudDNSRecord). -/
structure Record where
  name : String
  rtype : String
  data : String
  ttl : Int
  priority : Option Int
  comment : Option String
deriving DecidableEq, Repr

/-- Provider DNS state: zones, and records tagged with their zone's name. -/
structure DnsState where
  zones : List Zone
  records : List (String × Record)
deriving DecidableEq, Repr

/-- A cloud-files container (the fields the module reads). -/
structure Container where
  name : String
  cdn_enabled : Bool
  cdn_ttl : Int
deriving DecidableEq, Repr

structure CfState where
  containers : List Container
deriving DecidableEq, Repr

/-- A cloud-database instance (the fields the module uses). -/
structure DbInstance where
  name : String
  flavor : String
  size : Int
deriving DecidableEq, Repr

/-- Provider database state: instances plus the available flavor names. -/
structure DbState where
  instances : List DbInstance
  flavors : List String
deriving DecidableEq, Repr

/-- Python 2 comparison `x < n` where `x` may be None: None is smaller than
every int in Python 2. -/
def py2_lt_int : Option Int → Int → Bool
  | none, _ => true
  | some v, n => decide (v < n)

/-- Python truthiness of an optional string (None and '' are falsy); used
for `if comment:`-style guards. -/
def pyStrOpt : Option String → Option String
  | none => none
  | some c => if c = "" then none else some c

namespace Modules

/- Global constants of salt/_modules/rackspace.py. -/
def MAX_DB_VOLUME_SIZE : Int := 150
def MINIMUM_TTL : Int := 300

/-- The source line is
`VALID_RECORD_TYPES = ['A', 'AAAA', 'CNAME', 'MX' 'NS', 'PTR', 'SRV', 'TXT']`;
the adjacent string literals `'MX' 'NS'` concatenate in Python, so the list
has seven elements and contains "MXNS" instead of "MX" and "NS". -/
def VALID_RECORD_TYPES : List String :=
  ["A", "AAAA", "CNAME", "MXNS", "PTR", "SRV", "TXT"]

def PRIORITY_RECORD_TYPES : List String := ["MX", "SRV"]

/-- `_dns_is_valid_record_type` restricted to string inputs (non-strings
raise TypeError, out of scope here). -/
def dns_is_valid_record_type (record_type : String) : Bool :=
  VALID_RECORD_TYPES.contains (pyUpper record_type)

/-- Provider-side zone lookup: `driver.find(name=name)`, raising NotFound
when no zone matches. -/
def zoneFind (zones : List Zone) (name : String) : Except PErr Zone :=
  match zones.find? (fun z => decide (z.name = name)) with
  | some z => .ok z
  | none => .error .notFound

/-- Records belonging to a zone. -/
def zoneRecords (records : List (String × Record)) (zone_name : String) : List Record :=
  (records.filter fun p => decide (p.1 = zone_name)).map Prod.snd

/-- Provider-side `zone.search_records(rtype, name=name, data=data)`:
filter by type and name, and by data when data is not None. -/
def search_records (records : List (String × Record)) (zone_name rtype name : String)
    (data : Option String) : List Record :=
  (zoneRecords records zone_name).filter fun r =>
    decide (r.rtype = rtype) && decide (r.name = name) &&
      match data with
      | none => true
      | some d => decide (r.data = d)

/-- `_dns_zone_get_by_name`: the zone lookup with NotFound logged and
re-raised. -/
def dns_zone_get_by_name (st : DnsState) (name : String) : Except PErr Zone :=
  zoneFind st.zones name

/-- Provider default ttl assigned to a zone created without an explicit ttl
(external provider behaviour; the exact value is irrelevant to the claims). -/
def DEFAULT_ZONE_TTL : Int := 3600

/-- `dns_zone_create(name, email_address, ttl=False)`: no validation at all;
`if not ttl` (falsy: False, None, 0) creates without a ttl, letting the
provider assign its default. -/
def dns_zone_create (st : DnsState) (name : String) (email_address : Option String)
    (ttl : Option Int) : Res DnsState Zone :=
  let zone : Zone :=
    match ttl with
    | none => { name := name, email := email_address, ttl := DEFAULT_ZONE_TTL }
    | some t =>
      if t = 0 then { name := name, email := email_address, ttl := DEFAULT_ZONE_TTL }
      else { name := name, email := email_address, ttl := t }
  ⟨.ok zone, { st with zones := st.zones ++ [zone] }, [.zoneCreate name]⟩

/-- The body of `dns_zone_exists` after the `try` block: a function of the
lookup outcome.  Only exc.NotFound is caught (becoming False); any other
exception propagates.  kwargs.get uses the zone's own fields as defaults. -/
def dns_zone_exists_core (lookup : Except PErr Zone)
    (kw_email : Option (Option String)) (kw_ttl : Option (Option Int)) :
    Except PErr Bool :=
  match lookup with
  | .error .notFound => .ok false
  | .error e => .error e
  | .ok zone =>
    let email_address : Option String := kw_email.getD zone.email
    let ttl : Option Int := kw_ttl.getD (some zone.ttl)
    if some zone.ttl ≠ ttl ∨ zone.email ≠ email_address then .ok false
    else .ok true

/-- `dns_zone_exists(name, **kwargs)`. -/
def dns_zone_exists (st : DnsState) (name : String)
    (kw_email : Option (Option String)) (kw_ttl : Option (Option Int)) :
    Res DnsState Bool :=
  ⟨dns_zone_exists_core (dns_zone_get_by_name st name) kw_email kw_ttl, st, []⟩

/-- Replace the first occurrence of the exact zone object found by the
lookup (pyrax updates the found object in place). -/
def replaceZone : List Zone → Zone → Zone → List Zone
  | [], _, _ => []
  | z :: rest, old, zNew =>
    if z = old then zNew :: rest else z :: replaceZone rest old zNew

/-- `dns_zone_update(name, **kwargs)`: zone lookup first (NotFound
propagates), then the field_types intersection check (`['emailAddress',
'ttl']` against the kwargs keys; callers pass `email_address`/`ttl`/`comment`
keys, so only the `ttl` key can intersect), then the ttl floor check
(Python 2: `None < 300` is True), then the mutating `zone.update`. -/
def dns_zone_update (st : DnsState) (name : String)
    (kw_email : Option (Option String)) (kw_ttl : Option (Option Int))
    (kw_comment : Option (Option String)) : Res DnsState Zone :=
  match dns_zone_get_by_name st name with
  | .error e => ⟨.error e, st, []⟩
  | .ok zone =>
    if kw_ttl.isNone then
      ⟨.error (.typeErr "Must provide one of the following: [emailAddress, ttl]"), st, []⟩
    else
      let _comment : Option String := (kw_comment.getD (some "")).getD ""
      let email_address : Option String := kw_email.getD zone.email
      let ttl : Option Int := kw_ttl.getD (some zone.ttl)
      if py2_lt_int ttl MINIMUM_TTL then
        ⟨.error (.valueErr "ttl has a minimum value of 300"), st, []⟩
      else
        let zone' : Zone := { name := zone.name, email := email_address,
                              ttl := ttl.getD zone.ttl }
        ⟨.ok zone', { st with zones := replaceZone st.zones zone zone' },
         [.zoneUpdate name]⟩

/-- `_dns_record_get_by_name(name, zone_name, record_type, data=None,
allow_multiple_records=True)`: zone lookup (NotFound re-raised), record type
validation (TypeError), then `search_records` (allow multiple) or
`find_record` (exactly one match or NotFound / DomainRecordNotUnique). -/
def dns_record_get_by_name (st : DnsState) (name zone_name record_type : String)
    (data : Option String) (allow_multiple_records : Bool) :
    Except PErr (List Record) :=
  match zoneFind st.zones zone_name with
  | .error e => .error e
  | .ok _ =>
    if ¬dns_is_valid_record_type record_type then
      .error (.typeErr ("Not Valid Record Type: " ++ record_type))
    else
      let rt := pyUpper record_type
      if allow_multiple_records then
        .ok (search_records st.records zone_name rt name data)
      else
        match search_records st.records zone_name rt name data with
        | [] => .error .notFound
        | [r] => .ok [r]
        | _ => .error .notUnique

/-- The per-record loop body of `dns_record_exists`: the ttl comparison is
skipped when the ttl argument is falsy (False/None/0). -/
def ttlCheck (ttl : Option Int) (record : Record) : Bool :=
  match ttl with
  | none => true
  | some t => if t = 0 then true else decide (record.ttl = t)

/-- The priority comparison is skipped when priority is falsy, and also (with
only a log warning) when the record type is not in PRIORITY_RECORD_TYPES;
note the comparison uses the caller's record_type verbatim (no upcasing). -/
def priorityCheck (record_type : String) (priority : Option Int) (record : Record) : Bool :=
  match priority with
  | none => true
  | some p =>
    if p = 0 then true
    else if PRIORITY_RECORD_TYPES.contains record_type then
      decide (record.priority = some p)
    else true

/-- The body of `dns_record_exists` after the `try` block: only exc.NotFound
is caught (→ False); other exceptions propagate.  A record counts as found
when every applicable comparison passes. -/
def dns_record_exists_core (lookup : Except PErr (List Record))
    (record_type : String) (ttl priority : Option Int) : Except PErr Bool :=
  match lookup with
  | .error .notFound => .ok false
  | .error e => .error e
  | .ok records =>
    .ok (records.any fun record =>
      ttlCheck ttl record && priorityCheck record_type priority record)

/-- `dns_record_exists(name, zone_name, record_type, data, ttl=False,
priority=False)`; data can be None (the state layer's base check passes
data=None). -/
def dns_record_exists (st : DnsState) (name zone_name record_type : String)
    (data : Option String) (ttl priority : Option Int) : Res DnsState Bool :=
  ⟨dns_record_exists_core
      (dns_record_get_by_name st name zone_name record_type data true)
      record_type ttl priority, st, []⟩

/-- `dns_record_create(name, zone_name, record_type, data, ttl=False,
priority=None, comment=False)`: type validation, record_dict assembly
(ttl/comment only when truthy), the priority requirement for
PRIORITY_RECORD_TYPES (checked on the verbatim record_type), then the zone
lookup and the mutating `add_records`.  A record created without a ttl gets
the zone's default ttl (provider behaviour); the stored type is the string
sent. -/
def dns_record_create (st : DnsState) (name zone_name record_type : String)
    (data : String) (ttl : Option Int) (priority : Option Int)
    (comment : Option String) : Res DnsState (List Record) :=
  if ¬dns_is_valid_record_type record_type then
    ⟨.error (.typeErr ("Not a valid record type: " ++ record_type)), st, []⟩
  else if PRIORITY_RECORD_TYPES.contains record_type ∧ priority = none then
    ⟨.error (.valueErr "priority required for MX records"), st, []⟩
  else
    match zoneFind st.zones zone_name with
    | .error e => ⟨.error e, st, []⟩
    | .ok zone =>
      let record : Record :=
        { name := name, rtype := record_type, data := data,
          ttl := match ttl with
                 | none => zone.ttl
                 | some t => if t = 0 then zone.ttl else t,
          priority := if PRIORITY_RECORD_TYPES.contains record_type then priority
                      else none,
          comment := pyStrOpt comment }
      ⟨.ok [record], { st with records := st.records ++ [(zone_name, record)] },
       [.recordAdd zone_name]⟩

/-- The effect of the SDK's `record.update(data=data, priority=priority,
ttl=ttl, comment=comment)`: the always-supplied data is applied; falsy
(None/False/0/'') ttl, priority and comment leave the stored value. -/
def recordApplyUpdate (record : Record) (data : String) (ttl priority : Option Int)
    (comment : Option String) : Record :=
  { record with
    data := data,
    ttl := match ttl with
           | none => record.ttl
           | some t => if t = 0 then record.ttl else t,
    priority := match priority with
                | none => record.priority
                | some p => if p = 0 then record.priority else some p,
    comment := match comment with
               | none => record.comment
               | some c => if c = "" then record.comment else some c }

/-- Replace the first occurrence of the exact record object found by the
lookup (pyrax updates the found object in place). -/
def replaceRecord : List (String × Record) → String → Record → Record →
    List (String × Record)
  | [], _, _, _ => []
  | p :: rest, zone_name, old, rNew =>
    if p = (zone_name, old) then (zone_name, rNew) :: rest
    else p :: replaceRecord rest zone_name old rNew

/-- `dns_record_update(name, zone_name, record_type, data, ttl=False,
priority=False, comment='')`: looks the record up with
`allow_multiple_records=False` and **without a data filter** (so it raises
DomainRecordNotUnique whenever several records share the name and type),
takes element [0], and performs the mutating `record.update`. -/
def dns_record_update (st : DnsState) (name zone_name record_type : String)
    (data : String) (ttl priority : Option Int) (comment : Option String) :
    Res DnsState Record :=
  match dns_record_get_by_name st name zone_name record_type none false with
  | .error e => ⟨.error e, st, []⟩
  | .ok [] => ⟨.error .notFound, st, []⟩
  | .ok (record :: _) =>
    let updated := recordApplyUpdate record data ttl priority comment
    ⟨.ok updated,
     { st with records := replaceRecord st.records zone_name record updated },
     [.recordUpdate zone_name]⟩

/-- Container lookup `driver.get_container(name)`, raising NoSuchContainer
(modelled by `PErr.notFound`) when absent. -/
def containerFind (containers : List Container) (name : String) :
    Except PErr Container :=
  match containers.find? (fun c => decide (c.name = name)) with
  | some c => .ok c
  | none => .error .notFound

/-- The body of `cf_container_exists` after the `try` block: only
NoSuchContainer is caught (→ False); other exceptions propagate.  The
cdn_enabled / ttl comparisons run only on arguments that are not None. -/
def cf_container_exists_core (lookup : Except PErr Container)
    (cdn_enabled : Option Bool) (ttl : Option Int) : Except PErr Bool :=
  match lookup with
  | .error .notFound => .ok false
  | .error e => .error e
  | .ok container =>
    match cdn_enabled with
    | some b =>
      if b ≠ container.cdn_enabled then .ok false
      else
        match ttl with
        | some t => if t ≠ container.cdn_ttl then .ok false else .ok true
        | none => .ok true
    | none =>
      match ttl with
      | some t => if t ≠ container.cdn_ttl then .ok false else .ok true
      | none => .ok true

/-- `cf_container_exists(name, cdn_enabled=None, ttl=None)`. -/
def cf_container_exists (st : CfState) (name : String)
    (cdn_enabled : Option Bool) (ttl : Option Int) : Res CfState Bool :=
  ⟨cf_container_exists_core (containerFind st.containers name) cdn_enabled ttl,
   st, []⟩

/-- `db_instance_exists(name)`: walks the instance list. -/
def db_instance_exists (st : DbState) (name : String) : Bool :=
  st.instances.any fun i => decide (i.name = name)

/-- `db_flavor_exists(name)`: walks the flavor list. -/
def db_flavor_exists (st : DbState) (name : String) : Bool :=
  st.flavors.any fun f => decide (f = name)

/-- `db_instance_create(name, flavor, size)`: existence check, then the
volume size cap (`size > MAX_DB_VOLUME_SIZE` raises), then the flavor check,
then the mutating `driver.create`. -/
def db_instance_create (st : DbState) (name flavor : String) (size : Int) :
    Res DbState DbInstance :=
  if db_instance_exists st name then
    ⟨.error (.valueErr "Instance Already Exists"), st, []⟩
  else if size > MAX_DB_VOLUME_SIZE then
    ⟨.error (.valueErr "Volume size must be less than 150"), st, []⟩
  else if ¬db_flavor_exists st flavor then
    ⟨.error (.valueErr "Invalid Flavor"), st, []⟩
  else
    let inst : DbInstance := { name := name, flavor := flavor, size := size }
    ⟨.ok inst, { st with instances := st.instances ++ [inst] },
     [.instanceCreate name]⟩

end Modules

namespace States

/-- The `ret` dict of the zone state function (changes.new / changes.updated
hold zone dicts). -/
structure ZoneStateRet where
  name : String
  result : Option Bool
  comment : String
  changes_new : Option Zone
  changes_updated : Option Zone
deriving DecidableEq, Repr

/-- The `ret` dict of the record state function (changes.new holds the list
returned by dns_record_create, changes.updated a single record dict). -/
structure RecordStateRet where
  name : String
  result : Option Bool
  comment : String
  changes_new : Option (List Record)
  changes_updated : Option Record
deriving DecidableEq, Repr

/-- The `ret` dict of the db-instance state function (only changes.new is
ever set by the source). -/
structure DbStateRet where
  name : String
  result : Option Bool
  comment : String
  changes_new : Option DbInstance
  changes_updated : Option DbInstance
deriving DecidableEq, Repr

/-- State function `dns_zone_exists(name, email_address=None, ttl=None,
opts=False)`; `test` models `__opts__['test']`.  The kwargs keys
email_address/ttl are always present in the module calls it makes (possibly
with value None). -/
def dns_zone_exists (st : DnsState) (name : String) (email_address : Option String)
    (ttl : Option Int) (test : Bool) : Res DnsState ZoneStateRet :=
  let r1 := Modules.dns_zone_exists st name (some email_address) (some ttl)
  match r1.out with
  | .error e => ⟨.error e, r1.st, r1.muts⟩
  | .ok does_exist =>
    if ¬does_exist then
      if test then
        ⟨.ok { name := name, result := none,
               comment := "DNS Zone " ++ name ++ " set to be created",
               changes_new := none, changes_updated := none }, st, []⟩
      else
        let r2 := Modules.dns_zone_exists st name none none
        match r2.out with
        | .error e => ⟨.error e, r2.st, r2.muts⟩
        | .ok base_zone_exists =>
          if ¬base_zone_exists then
            let r3 := Modules.dns_zone_create st name email_address ttl
            match r3.out with
            | .error e => ⟨.error e, r3.st, r3.muts⟩
            | .ok created =>
              ⟨.ok { name := name, result := some true, comment := "",
                     changes_new := some created, changes_updated := none },
               r3.st, r3.muts⟩
          else
            let r4 := Modules.dns_zone_update st name (some email_address)
                        (some ttl) none
            match r4.out with
            | .error e => ⟨.error e, r4.st, r4.muts⟩
            | .ok updated =>
              ⟨.ok { name := name, result := some true, comment := "",
                     changes_new := none, changes_updated := some updated },
               r4.st, r4.muts⟩
    else
      ⟨.ok { name := name, result := some true, comment := name ++ " exists",
             changes_new := none, changes_updated := none }, st, []⟩

/-- State function `dns_record_exists(name, zone_name, record_type, data,
ttl=None, priority=None, comment=None, allow_multiple_records=False,
opts=False)`.  Note the exact-check → dry-run → base-check →
(create | needs_updating → update | allow-multiple → create | update)
cascade, and that both create calls pass the literal ttl=600. -/
def dns_record_exists (st : DnsState) (name zone_name record_type data : String)
    (ttl priority : Option Int) (comment : Option String)
    (allow_multiple_records : Bool) (test : Bool) : Res DnsState RecordStateRet :=
  let r1 := Modules.dns_record_exists st name zone_name record_type (some data)
              ttl priority
  match r1.out with
  | .error e => ⟨.error e, r1.st, r1.muts⟩
  | .ok does_exist =>
    if ¬does_exist then
      if test then
        ⟨.ok { name := name, result := none,
               comment := "DNS Record for " ++ name ++ " set to be created/updated",
               changes_new := none, changes_updated := none }, st, []⟩
      else
        let r2 := Modules.dns_record_exists st name zone_name record_type none
                    none none
        match r2.out with
        | .error e => ⟨.error e, r2.st, r2.muts⟩
        | .ok base_record_exists =>
          if ¬base_record_exists then
            let r3 := Modules.dns_record_create st name zone_name record_type data
                        (some 600) priority comment
            match r3.out with
            | .error e => ⟨.error e, r3.st, r3.muts⟩
            | .ok created =>
              ⟨.ok { name := name, result := some true, comment := "",
                     changes_new := some created, changes_updated := none },
               r3.st, r3.muts⟩
          else
            let r4 := Modules.dns_record_exists st name zone_name record_type
                        (some data) none none
            match r4.out with
            | .error e => ⟨.error e, r4.st, r4.muts⟩
            | .ok needs_updating =>
              if needs_updating then
                let r5 := Modules.dns_record_update st name zone_name record_type
                            data ttl priority comment
                match r5.out with
                | .error e => ⟨.error e, r5.st, r5.muts⟩
                | .ok updated =>
                  ⟨.ok { name := name, result := some true, comment := "",
                         changes_new := none, changes_updated := some updated },
                   r5.st, r5.muts⟩
              else if allow_multiple_records then
                let r6 := Modules.dns_record_create st name zone_name record_type
                            data (some 600) priority comment
                match r6.out with
                | .error e => ⟨.error e, r6.st, r6.muts⟩
                | .ok created =>
                  ⟨.ok { name := name, result := some true, comment := "",
                         changes_new := some created, changes_updated := none },
                   r6.st, r6.muts⟩
              else
                let r7 := Modules.dns_record_update st name zone_name record_type
                            data ttl priority comment
                match r7.out with
                | .error e => ⟨.error e, r7.st, r7.muts⟩
                | .ok updated =>
                  ⟨.ok { name := name, result := some true, comment := "",
                         changes_new := none, changes_updated := some updated },
                   r7.st, r7.muts⟩
    else
      ⟨.ok { name := name, result := some true, comment := name ++ " exists",
             changes_new := none, changes_updated := none }, st, []⟩

/-- State function `db_instance_exists(name, flavor, size, opts=False)`:
only a ValueError from the create call is caught (→ result False with the
message in the comment). -/
def db_instance_exists (st : DbState) (name flavor : String) (size : Int)
    (test : Bool) : Res DbState DbStateRet :=
  let does_exist := Modules.db_instance_exists st name
  if ¬does_exist then
    if test then
      ⟨.ok { name := name, result := none,
             comment := "DB instance " ++ name ++ " set to be created",
             changes_new := none, changes_updated := none }, st, []⟩
    else
      let r := Modules.db_instance_create st name flavor size
      match r.out with
      | .ok created =>
        ⟨.ok { name := name, result := some true, comment := "",
               changes_new := some created, changes_updated := none },
         r.st, r.muts⟩
      | .error (.valueErr msg) =>
        ⟨.ok { name := name, result := some false,
               comment := "Unable to create: " ++ msg,
               changes_new := none, changes_updated := none }, r.st, r.muts⟩
      | .error e => ⟨.error e, r.st, r.muts⟩
  else
    ⟨.ok { name := name, result := some true, comment := name ++ " exists",
           changes_new := none, changes_updated := none }, st, []⟩

end States

/- Concrete provider states used by counterexamples and witnesses. -/

/-- A state holding the single zone example.com (email a@example.com, ttl 300). -/
def stZone : DnsState :=
  { zones := [{ name := "example.com", email := some "a@example.com", ttl := 300 }],
    records := [] }

/-- The empty DNS state. -/
def stEmpty : DnsState := { zones := [], records := [] }

/-- Claim C5: the spec says record-type validation accepts (case-insensitively)
exactly A, AAAA, CNAME, MX, NS, PTR, SRV, TXT.  The source's
`VALID_RECORD_TYPES = ['A', 'AAAA', 'CNAME', 'MX' 'NS', 'PTR', 'SRV', 'TXT']`
concatenates the adjacent literals 'MX' 'NS' into 'MXNS', so "MX" and "NS"
(of any casing) are rejected while "mxns" is accepted, and a create for
"mxns" reaches the provider (zone lookup and add_records) unrejected.
PRIORITY_RECORD_TYPES and the message "priority required for MX records"
show MX support is the module's own intent. -/
theorem C5_record_type_validation_bug :
    Modules.dns_is_valid_record_type "MX" = false ∧
    Modules.dns_is_valid_record_type "mx" = false ∧
    Modules.dns_is_valid_record_type "NS" = false ∧
    Modules.dns_is_valid_record_type "ns" = false ∧
    Modules.dns_is_valid_record_type "MXNS" = true ∧
    Modules.dns_is_valid_record_type "mxns" = true ∧
    Modules.dns_is_valid_record_type "a" = true ∧
    Modules.PRIORITY_RECORD_TYPES.contains "MX" = true ∧
    (Modules.dns_record_create stZone "n.example.com" "example.com" "mxns" "d"
        none none none).muts = [.recordAdd "example.com"] := by
  decide

/-- Claim C3 counterexample: `dns_zone_create` performs no TTL validation at
all — with ttl=100 (< 300) it raises nothing and performs the mutating
provider create, refuting "this holds for both zone creation and zone
update". -/
theorem C3_zone_create_skips_ttl_validation :
    (Modules.dns_zone_create stEmpty "example.com" (some "a@example.com")
        (some 100)).out =
      .ok { name := "example.com", email := some "a@example.com", ttl := 100 } ∧
    (Modules.dns_zone_create stEmpty "example.com" (some "a@example.com")
        (some 100)).muts = [.zoneCreate "example.com"] := by
  decide

/-- Claim C3 amended: `dns_zone_update` with a TTL below 300 raises ValueError
before its mutating update call (though after the zone lookup read), for any
zone that exists; `dns_zone_create` performs no TTL validation and forwards
the requested ttl to the provider unchanged. -/
theorem C3_ttl_floor_update_only (st : DnsState) (name : String) (z : Zone)
    (kwE kwC : Option (Option String)) (t : Int)
    (hz : Modules.dns_zone_get_by_name st name = .ok z)
    (ht : t < Modules.MINIMUM_TTL) :
    ((Modules.dns_zone_update st name kwE (some (some t)) kwC).out =
        .error (.valueErr "ttl has a minimum value of 300") ∧
      (Modules.dns_zone_update st name kwE (some (some t)) kwC).muts = []) ∧
    (∀ (st' : DnsState) (name' e' : String) (t' : Int), t' ≠ 0 →
      (Modules.dns_zone_create st' name' (some e') (some t')).out =
        .ok { name := name', email := some e', ttl := t' } ∧
      (Modules.dns_zone_create st' name' (some e') (some t')).muts =
        [.zoneCreate name']) := by
  constructor
  · have hlt : py2_lt_int (some t) Modules.MINIMUM_TTL = true := by
      simp [py2_lt_int, ht]
    simp [Modules.dns_zone_update, hz, hlt]
  · intro st' name' e' t' ht'
    simp [Modules.dns_zone_create, ht']

/-- Witness for C3_ttl_floor_update_only at a concrete state and ttl. -/
theorem C3_ttl_floor_update_only_witness :
    ((Modules.dns_zone_update stZone "example.com" (some (some "b@example.com"))
        (some (some 100)) none).out =
      .error (.valueErr "ttl has a minimum value of 300") ∧
      (Modules.dns_zone_update stZone "example.com" (some (some "b@example.com"))
        (some (some 100)) none).muts = []) ∧
    (∀ (st' : DnsState) (name' e' : String) (t' : Int), t' ≠ 0 →
      (Modules.dns_zone_create st' name' (some e') (some t')).out =
        .ok { name := name', email := some e', ttl := t' } ∧
      (Modules.dns_zone_create st' name' (some e') (some t')).muts =
        [.zoneCreate name']) :=
  C3_ttl_floor_update_only stZone "example.com"
    { name := "example.com", email := some "a@example.com", ttl := 300 }
    (some (some "b@example.com")) none 100 (by decide) (by decide)

/-- Claim C4: a `dns_record_create` call with record type "MX" or "SRV" and no
priority fails with an argument error (a TypeError or ValueError raised
during validation) before any provider call — for "MX" it is the
record-type TypeError caused by the VALID_RECORD_TYPES slip (see C5), for
"SRV" the priority ValueError — while an "A" record without priority is not
rejected: it proceeds to the provider and is created (given its zone
exists). -/
theorem C4_priority_requirement (st st2 : DnsState) (z : Zone)
    (name zone_name data : String) (ttl : Option Int) (comment : Option String)
    (hz : Modules.zoneFind st2.zones zone_name = .ok z) :
    ((Modules.dns_record_create st name zone_name "MX" data ttl none comment).out =
        .error (.typeErr "Not a valid record type: MX") ∧
      (Modules.dns_record_create st name zone_name "MX" data ttl none comment).muts = []) ∧
    ((Modules.dns_record_create st name zone_name "SRV" data ttl none comment).out =
        .error (.valueErr "priority required for MX records") ∧
      (Modules.dns_record_create st name zone_name "SRV" data ttl none comment).muts = []) ∧
    ((Modules.dns_record_create st2 name zone_name "A" data ttl none comment).out =
        .ok [{ name := name, rtype := "A", data := data,
               ttl := match ttl with
                      | none => z.ttl
                      | some t => if t = 0 then z.ttl else t,
               priority := none, comment := pyStrOpt comment }] ∧
      (Modules.dns_record_create st2 name zone_name "A" data ttl none comment).muts =
        [.recordAdd zone_name]) := by
  have hMX : Modules.dns_is_valid_record_type "MX" = false := by decide
  have hSRV : Modules.dns_is_valid_record_type "SRV" = true := by decide
  have hA : Modules.dns_is_valid_record_type "A" = true := by decide
  have hPS : "SRV" ∈ Modules.PRIORITY_RECORD_TYPES := by decide
  have hPA : "A" ∉ Modules.PRIORITY_RECORD_TYPES := by decide
  refine ⟨⟨?_, ?_⟩, ⟨?_, ?_⟩, ?_, ?_⟩ <;>
    simp [Modules.dns_record_create, hMX, hSRV, hA, hPS, hPA, hz]

/-- Witness for C4_priority_requirement at a concrete state. -/
theorem C4_priority_requirement_witness :
    ((Modules.dns_record_create stEmpty "n.example.com" "example.com" "MX" "d"
        none none none).out = .error (.typeErr "Not a valid record type: MX") ∧
      (Modules.dns_record_create stEmpty "n.example.com" "example.com" "MX" "d"
        none none none).muts = []) ∧
    ((Modules.dns_record_create stEmpty "n.example.com" "example.com" "SRV" "d"
        none none none).out = .error (.valueErr "priority required for MX records") ∧
      (Modules.dns_record_create stEmpty "n.example.com" "example.com" "SRV" "d"
        none none none).muts = []) ∧
    ((Modules.dns_record_create stZone "n.example.com" "example.com" "A" "d"
        none none none).out =
        .ok [{ name := "n.example.com", rtype := "A", data := "d",
               ttl := match (none : Option Int) with
                      | none => (300 : Int)
                      | some t => if t = 0 then (300 : Int) else t,
               priority := none, comment := pyStrOpt none }] ∧
      (Modules.dns_record_create stZone "n.example.com" "example.com" "A" "d"
        none none none).muts = [.recordAdd "example.com"]) :=
  C4_priority_requirement stEmpty stZone
    { name := "example.com", email := some "a@example.com", ttl := 300 }
    "n.example.com" "example.com" "d" none none (by decide)

/-- Claim C10: `db_instance_create` raises ValueError before the provider's
create for any size above 150 (whichever of the ordered checks fires), for
an already-existing instance name, and for an unknown flavor; size exactly
150 passes the size check and, with a fresh name and valid flavor, the
create proceeds. -/
theorem C10_db_instance_create_checks (st : DbState) (name flavor : String)
    (size : Int) :
    (size > Modules.MAX_DB_VOLUME_SIZE →
      (∃ msg, (Modules.db_instance_create st name flavor size).out =
          .error (.valueErr msg)) ∧
      (Modules.db_instance_create st name flavor size).muts = []) ∧
    (Modules.db_instance_exists st name = true →
      (Modules.db_instance_create st name flavor size).out =
        .error (.valueErr "Instance Already Exists") ∧
      (Modules.db_instance_create st name flavor size).muts = []) ∧
    (Modules.db_instance_exists st name = false →
      size ≤ Modules.MAX_DB_VOLUME_SIZE →
      Modules.db_flavor_exists st flavor = false →
      (Modules.db_instance_create st name flavor size).out =
        .error (.valueErr "Invalid Flavor") ∧
      (Modules.db_instance_create st name flavor size).muts = []) ∧
    (Modules.db_instance_exists st name = false →
      Modules.db_flavor_exists st flavor = true →
      size = 150 →
      (Modules.db_instance_create st name flavor size).out =
        .ok { name := name, flavor := flavor, size := 150 } ∧
      (Modules.db_instance_create st name flavor size).muts =
        [.instanceCreate name]) := by
  refine ⟨?_, ?_, ?_, ?_⟩
  · intro hsize
    by_cases hex : Modules.db_instance_exists st name
    · exact ⟨⟨"Instance Already Exists", by simp [Modules.db_instance_create, hex]⟩,
        by simp [Modules.db_instance_create, hex]⟩
    · exact ⟨⟨"Volume size must be less than 150",
        by simp [Modules.db_instance_create, hex, hsize]⟩,
        by simp [Modules.db_instance_create, hex, hsize]⟩
  · intro hex
    simp [Modules.db_instance_create, hex]
  · intro hex hsize hfl
    simp [Modules.db_instance_create, hex, hfl, not_lt.mpr hsize]
  · intro hex hfl hsize
    subst hsize
    simp [Modules.db_instance_create, hex, hfl, Modules.MAX_DB_VOLUME_SIZE]

/-- Witness for C10_db_instance_create_checks: size 200 is rejected on the
concrete one-flavor state. -/
theorem C10_db_instance_create_checks_witness :
    (∃ msg, (Modules.db_instance_create { instances := [], flavors := ["1GB"] }
        "inst" "1GB" 200).out = .error (.valueErr msg)) ∧
    (Modules.db_instance_create { instances := [], flavors := ["1GB"] }
        "inst" "1GB" 200).muts = [] :=
  (C10_db_instance_create_checks { instances := [], flavors := ["1GB"] }
    "inst" "1GB" 200).1 (by decide)

/-- Replacing the zone object returned by a name lookup puts the replacement
at the found position, so a subsequent lookup returns the replacement
(provided it carries the same name). -/
theorem zoneFind_replaceZone (zs : List Zone) (name : String) (z z' : Zone)
    (h : zs.find? (fun a => decide (a.name = name)) = some z)
    (hn : z'.name = z.name) :
    (Modules.replaceZone zs z z').find? (fun a => decide (a.name = name)) =
      some z' := by
  induction zs with
  | nil => simp at h
  | cons a rest ih =>
    by_cases ha : a.name = name
    · have hz : z = a := by
        rw [List.find?_cons_of_pos _ (by simpa using ha)] at h
        exact (Option.some.inj h).symm
      subst hz
      have hz' : z'.name = name := by rw [hn, ha]
      simp only [Modules.replaceZone, if_pos rfl]
      exact List.find?_cons_of_pos _ (by simpa using hz')
    · have h' : rest.find? (fun a => decide (a.name = name)) = some z := by
        rwa [List.find?_cons_of_neg _ (by simpa using ha)] at h
      have haz : a ≠ z := by
        intro hEq
        apply ha
        have hp := List.find?_some h'
        rw [hEq]
        simpa using hp
      rw [Modules.replaceZone, if_neg haz,
        List.find?_cons_of_neg _ (by simpa using ha)]
      exact ih h'

/-- Claim C1 counterexample: the record ensure's create path passes the
literal ttl=600 to dns_record_create, ignoring the desired ttl.  Ensuring an
absent A record with desired ttl 900 succeeds (result true) but leaves a
record with ttl 600, and the full desired-state existence check on the
post-call state is still false — the resource does not match every field
present in the desired mapping. -/
theorem C1_record_create_ignores_desired_ttl :
    (States.dns_record_exists stZone "host.example.com" "example.com" "A"
        "1.1.1.1" (some 900) none none false false).out =
      .ok { name := "host.example.com", result := some true, comment := "",
            changes_new := some [{ name := "host.example.com", rtype := "A",
                                   data := "1.1.1.1", ttl := 600,
                                   priority := none, comment := none }],
            changes_updated := none } ∧
    (States.dns_record_exists stZone "host.example.com" "example.com" "A"
        "1.1.1.1" (some 900) none none false false).st.records =
      [("example.com", { name := "host.example.com", rtype := "A",
                         data := "1.1.1.1", ttl := 600, priority := none,
                         comment := none })] ∧
    (Modules.dns_record_exists
        (States.dns_record_exists stZone "host.example.com" "example.com" "A"
          "1.1.1.1" (some 900) none none false false).st
        "host.example.com" "example.com" "A" (some "1.1.1.1") (some 900)
        none).out = .ok false := by
  decide

/-- Claim C1 amended (zone instance): for DNS zones with both desired fields
explicitly supplied (an email and a ttl of at least 300), a non-dry-run
ensure call succeeds, leaves the provider holding a zone named `name` whose
email and ttl match the desired values, and performs exactly one mutating
call if and only if one was necessary (none when the full-filter existence
check was already true). -/
theorem C1_zone_ensure_reconciles (st : DnsState) (name e : String) (t : Int)
    (ht : Modules.MINIMUM_TTL ≤ t) :
    ∃ ret : States.ZoneStateRet,
      (States.dns_zone_exists st name (some e) (some t) false).out = .ok ret ∧
      ret.result = some true ∧
      (∃ z : Zone,
        Modules.zoneFind
          (States.dns_zone_exists st name (some e) (some t) false).st.zones
          name = .ok z ∧
        z.email = some e ∧ z.ttl = t) ∧
      ((States.dns_zone_exists st name (some e) (some t) false).muts.length =
        if (Modules.dns_zone_exists st name (some (some e))
              (some (some t))).out = .ok true then 0 else 1) := by
  have ht' : (300 : Int) ≤ t := by simpa [Modules.MINIMUM_TTL] using ht
  have ht0 : ¬t = 0 := by omega
  have htlt : ¬t < 300 := by omega
  cases hf : st.zones.find? (fun a => decide (a.name = name)) with
  | none =>
    have hexact : (Modules.dns_zone_exists st name (some (some e))
        (some (some t))).out = .ok false := by
      simp [Modules.dns_zone_exists, Modules.dns_zone_get_by_name,
        Modules.zoneFind, hf, Modules.dns_zone_exists_core]
    have hbase : (Modules.dns_zone_exists st name none none).out = .ok false := by
      simp [Modules.dns_zone_exists, Modules.dns_zone_get_by_name,
        Modules.zoneFind, hf, Modules.dns_zone_exists_core]
    have hres : States.dns_zone_exists st name (some e) (some t) false =
        ⟨.ok { name := name, result := some true, comment := "",
               changes_new := some { name := name, email := some e, ttl := t },
               changes_updated := none },
         { zones := st.zones ++ [{ name := name, email := some e, ttl := t }],
           records := st.records }, [.zoneCreate name]⟩ := by
      simp [States.dns_zone_exists, hexact, hbase, Modules.dns_zone_create, ht0]
    refine ⟨_, by rw [hres], rfl, ⟨{ name := name, email := some e, ttl := t },
      ?_, rfl, rfl⟩, ?_⟩
    · rw [hres]
      simp [Modules.zoneFind, List.find?_append, hf, List.find?]
    · rw [hres, hexact]
      simp
  | some z =>
    by_cases hm : z.ttl = t ∧ z.email = some e
    · have hexact : (Modules.dns_zone_exists st name (some (some e))
          (some (some t))).out = .ok true := by
        simp [Modules.dns_zone_exists, Modules.dns_zone_get_by_name,
          Modules.zoneFind, hf, Modules.dns_zone_exists_core, hm.1, hm.2]
      have hres : States.dns_zone_exists st name (some e) (some t) false =
          ⟨.ok { name := name, result := some true, comment := name ++ " exists",
                 changes_new := none, changes_updated := none }, st, []⟩ := by
        simp [States.dns_zone_exists, hexact]
      refine ⟨_, by rw [hres], rfl, ⟨z, ?_, hm.2, hm.1⟩, ?_⟩
      · rw [hres]
        simp [Modules.zoneFind, hf]
      · rw [hres, hexact]
        simp
    · have hcond : some z.ttl ≠ some t ∨ z.email ≠ some e := by
        rcases not_and_or.mp hm with h | h
        · exact Or.inl (by simpa using h)
        · exact Or.inr h
      have hexact : (Modules.dns_zone_exists st name (some (some e))
          (some (some t))).out = .ok false := by
        simp only [Modules.dns_zone_exists, Modules.dns_zone_get_by_name,
          Modules.zoneFind, hf, Modules.dns_zone_exists_core, Option.getD_some]
        rw [if_pos hcond]
      have hbase : (Modules.dns_zone_exists st name none none).out = .ok true := by
        simp [Modules.dns_zone_exists, Modules.dns_zone_get_by_name,
          Modules.zoneFind, hf, Modules.dns_zone_exists_core]
      have hupd : Modules.dns_zone_update st name (some (some e))
          (some (some t)) none =
          ⟨.ok { name := z.name, email := some e, ttl := t },
           { zones := Modules.replaceZone st.zones z
               { name := z.name, email := some e, ttl := t },
             records := st.records }, [.zoneUpdate name]⟩ := by
        simp [Modules.dns_zone_update, Modules.dns_zone_get_by_name,
          Modules.zoneFind, hf, py2_lt_int, Modules.MINIMUM_TTL, htlt]
      have hres : States.dns_zone_exists st name (some e) (some t) false =
          ⟨.ok { name := name, result := some true, comment := "",
                 changes_new := none,
                 changes_updated := some { name := z.name, email := some e,
                                           ttl := t } },
           { zones := Modules.replaceZone st.zones z
               { name := z.name, email := some e, ttl := t },
             records := st.records }, [.zoneUpdate name]⟩ := by
        simp [States.dns_zone_exists, hexact, hbase, hupd]
      refine ⟨_, by rw [hres], rfl,
        ⟨{ name := z.name, email := some e, ttl := t }, ?_, rfl, rfl⟩, ?_⟩
      · rw [hres]
        simp only [Modules.zoneFind]
        rw [zoneFind_replaceZone st.zones name z
          { name := z.name, email := some e, ttl := t } hf rfl]
      · rw [hres, hexact]
        simp

/-- Witness for C1_zone_ensure_reconciles: ensuring example.com with a new
ttl of 900 on the one-zone state. -/
theorem C1_zone_ensure_reconciles_witness :
    ∃ ret : States.ZoneStateRet,
      (States.dns_zone_exists stZone "example.com" (some "a@example.com")
          (some 900) false).out = .ok ret ∧
      ret.result = some true ∧
      (∃ z : Zone,
        Modules.zoneFind
          (States.dns_zone_exists stZone "example.com" (some "a@example.com")
            (some 900) false).st.zones "example.com" = .ok z ∧
        z.email = some "a@example.com" ∧ z.ttl = 900) ∧
      ((States.dns_zone_exists stZone "example.com" (some "a@example.com")
          (some 900) false).muts.length =
        if (Modules.dns_zone_exists stZone "example.com"
              (some (some "a@example.com")) (some (some 900))).out = .ok true
        then 0 else 1) :=
  C1_zone_ensure_reconciles stZone "example.com" "a@example.com" 900 (by decide)

/-- Searching with a data filter is filtering the data-less search result. -/
theorem search_records_some_eq (records : List (String × Record))
    (zone_name rt name d : String) :
    Modules.search_records records zone_name rt name (some d) =
      (Modules.search_records records zone_name rt name none).filter
        (fun r => decide (r.data = d)) := by
  unfold Modules.search_records
  rw [List.filter_filter]
  apply List.filter_congr
  intro r _
  cases h1 : decide (r.rtype = rt) && decide (r.name = name) <;>
    cases h2 : decide (r.data = d) <;> simp [h1, h2]

/-- The zone example.com with two round-robin A records for
host.example.com. -/
def stRoundRobin : DnsState :=
  { zones := [{ name := "example.com", email := some "a@example.com", ttl := 300 }],
    records := [("example.com",
                 { name := "host.example.com", rtype := "A", data := "1.1.1.1",
                   ttl := 300, priority := none, comment := none }),
                ("example.com",
                 { name := "host.example.com", rtype := "A", data := "2.2.2.2",
                   ttl := 300, priority := none, comment := none })] }

/-- The zone example.com with a single SRV record. -/
def stSrvRecord : DnsState :=
  { zones := [{ name := "example.com", email := some "a@example.com", ttl := 300 }],
    records := [("example.com",
                 { name := "srv.example.com", rtype := "SRV", data := "old",
                   ttl := 300, priority := some 10, comment := none })] }

/-- Claim C2 counterexample, two concrete scenarios.
(1) With two round-robin A records for host.example.com (data 1.1.1.1 and
2.2.2.2) and desired state (data 2.2.2.2, ttl 900) — the exact check is
false, a record matching key and data exists (only the ttl differs) — the
claimed "update that specific entry" does not happen: dns_record_update
looks the record up with allow_multiple_records=False and no data filter,
so it raises DomainRecordNotUnique and the ensure call fails with no
mutating call.
(2) With one SRV record and a desired sibling (new data, no priority,
allow_multiple_records=true) the claimed sibling creation does not happen:
dns_record_create raises its priority ValueError. -/
theorem C2_update_or_sibling_failures :
    ((States.dns_record_exists stRoundRobin "host.example.com" "example.com"
        "A" "2.2.2.2" (some 900) none none false false).out =
        .error .notUnique ∧
      (States.dns_record_exists stRoundRobin "host.example.com" "example.com"
        "A" "2.2.2.2" (some 900) none none false false).muts = []) ∧
    ((States.dns_record_exists stSrvRecord "srv.example.com" "example.com"
        "SRV" "new" none none none true false).out =
        .error (.valueErr "priority required for MX records") ∧
      (States.dns_record_exists stSrvRecord "srv.example.com" "example.com"
        "SRV" "new" none none none true false).muts = []) := by
  decide

/-- The record assembled by dns_record_create on the ensure sibling-create
path (the state layer passes the literal ttl 600). -/
def createdSibling (name rt data : String) (priority : Option Int)
    (comment : Option String) : Record :=
  { name := name, rtype := rt, data := data, ttl := 600,
    priority := if Modules.PRIORITY_RECORD_TYPES.contains rt then priority
                else none,
    comment := pyStrOpt comment }

/-- Claim C2 amended: when the base record (same name and type) is unique —
`search_records` with no data filter finds exactly one record `old` — and,
for the sibling-create branch, the created type/priority combination passes
creation validation, the three-way disambiguation behaves as claimed:
a data match (only ttl/priority differing) updates that entry in place;
otherwise with allow_multiple_records a sibling record (with the desired
data and ttl 600) is appended while the old record is kept; otherwise the
single existing record is updated in place with the new data.  With several
records sharing name and type, both update branches instead raise
DomainRecordNotUnique (scenario (1) of the counterexample). -/
theorem C2_record_disambiguation (st : DnsState) (zone : Zone)
    (name zone_name rt data : String) (ttl priority : Option Int)
    (comment : Option String) (amr : Bool) (old : Record)
    (hz : Modules.zoneFind st.zones zone_name = .ok zone)
    (hv : Modules.dns_is_valid_record_type rt = true)
    (hs : Modules.search_records st.records zone_name (pyUpper rt) name none =
      [old])
    (hx : (Modules.dns_record_exists st name zone_name rt (some data) ttl
        priority).out = .ok false) :
    (old.data = data →
      (States.dns_record_exists st name zone_name rt data ttl priority comment
          amr false).out =
        .ok { name := name, result := some true, comment := "",
              changes_new := none,
              changes_updated :=
                some (Modules.recordApplyUpdate old data ttl priority comment) } ∧
      (States.dns_record_exists st name zone_name rt data ttl priority comment
          amr false).st =
        { zones := st.zones,
          records := Modules.replaceRecord st.records zone_name old
            (Modules.recordApplyUpdate old data ttl priority comment) } ∧
      (States.dns_record_exists st name zone_name rt data ttl priority comment
          amr false).muts = [.recordUpdate zone_name]) ∧
    (old.data ≠ data → amr = true →
      ¬(rt ∈ Modules.PRIORITY_RECORD_TYPES ∧ priority = none) →
      (States.dns_record_exists st name zone_name rt data ttl priority comment
          amr false).out =
        .ok { name := name, result := some true, comment := "",
              changes_new := some [createdSibling name rt data priority comment],
              changes_updated := none } ∧
      (States.dns_record_exists st name zone_name rt data ttl priority comment
          amr false).st =
        { zones := st.zones,
          records := st.records ++
            [(zone_name, createdSibling name rt data priority comment)] } ∧
      (States.dns_record_exists st name zone_name rt data ttl priority comment
          amr false).muts = [.recordAdd zone_name]) ∧
    (old.data ≠ data → amr = false →
      (States.dns_record_exists st name zone_name rt data ttl priority comment
          amr false).out =
        .ok { name := name, result := some true, comment := "",
              changes_new := none,
              changes_updated :=
                some (Modules.recordApplyUpdate old data ttl priority comment) } ∧
      (States.dns_record_exists st name zone_name rt data ttl priority comment
          amr false).st =
        { zones := st.zones,
          records := Modules.replaceRecord st.records zone_name old
            (Modules.recordApplyUpdate old data ttl priority comment) } ∧
      (States.dns_record_exists st name zone_name rt data ttl priority comment
          amr false).muts = [.recordUpdate zone_name]) := by
  have hget : ∀ d, Modules.dns_record_get_by_name st name zone_name rt d true =
      .ok (Modules.search_records st.records zone_name (pyUpper rt) name d) := by
    intro d
    simp [Modules.dns_record_get_by_name, hz, hv]
  have hbase : (Modules.dns_record_exists st name zone_name rt none none
      none).out = .ok true := by
    simp [Modules.dns_record_exists, hget, Modules.dns_record_exists_core, hs,
      Modules.ttlCheck, Modules.priorityCheck]
  have hupd : Modules.dns_record_update st name zone_name rt data ttl priority
      comment =
      ⟨.ok (Modules.recordApplyUpdate old data ttl priority comment),
       { zones := st.zones,
         records := Modules.replaceRecord st.records zone_name old
           (Modules.recordApplyUpdate old data ttl priority comment) },
       [.recordUpdate zone_name]⟩ := by
    simp [Modules.dns_record_update, Modules.dns_record_get_by_name, hz, hv, hs]
  refine ⟨?_, ?_, ?_⟩
  · intro hd
    have hsd : Modules.search_records st.records zone_name (pyUpper rt) name
        (some data) = [old] := by
      rw [search_records_some_eq, hs]
      simp [List.filter, hd]
    have hneeds : (Modules.dns_record_exists st name zone_name rt (some data)
        none none).out = .ok true := by
      simp [Modules.dns_record_exists, hget, Modules.dns_record_exists_core,
        hsd, Modules.ttlCheck, Modules.priorityCheck]
    have hres : States.dns_record_exists st name zone_name rt data ttl priority
        comment amr false =
        ⟨.ok { name := name, result := some true, comment := "",
               changes_new := none,
               changes_updated :=
                 some (Modules.recordApplyUpdate old data ttl priority comment) },
         { zones := st.zones,
           records := Modules.replaceRecord st.records zone_name old
             (Modules.recordApplyUpdate old data ttl priority comment) },
         [.recordUpdate zone_name]⟩ := by
      simp [States.dns_record_exists, hx, hbase, hneeds, hupd]
    exact ⟨by rw [hres], by rw [hres], by rw [hres]⟩
  · intro hd hamr hpri
    subst hamr
    have hsd : Modules.search_records st.records zone_name (pyUpper rt) name
        (some data) = [] := by
      rw [search_records_some_eq, hs]
      simp [List.filter, hd]
    have hneeds : (Modules.dns_record_exists st name zone_name rt (some data)
        none none).out = .ok false := by
      simp [Modules.dns_record_exists, hget, Modules.dns_record_exists_core, hsd]
    have hcre : Modules.dns_record_create st name zone_name rt data (some 600)
        priority comment =
        ⟨.ok [createdSibling name rt data priority comment],
         { zones := st.zones,
           records := st.records ++
             [(zone_name, createdSibling name rt data priority comment)] },
         [.recordAdd zone_name]⟩ := by
      simp [Modules.dns_record_create, hv, hpri, hz, createdSibling]
    have hres : States.dns_record_exists st name zone_name rt data ttl priority
        comment true false =
        ⟨.ok { name := name, result := some true, comment := "",
               changes_new := some [createdSibling name rt data priority comment],
               changes_updated := none },
         { zones := st.zones,
           records := st.records ++
             [(zone_name, createdSibling name rt data priority comment)] },
         [.recordAdd zone_name]⟩ := by
      simp [States.dns_record_exists, hx, hbase, hneeds, hcre]
    exact ⟨by rw [hres], by rw [hres], by rw [hres]⟩
  · intro hd hamr
    subst hamr
    have hsd : Modules.search_records st.records zone_name (pyUpper rt) name
        (some data) = [] := by
      rw [search_records_some_eq, hs]
      simp [List.filter, hd]
    have hneeds : (Modules.dns_record_exists st name zone_name rt (some data)
        none none).out = .ok false := by
      simp [Modules.dns_record_exists, hget, Modules.dns_record_exists_core, hsd]
    have hres : States.dns_record_exists st name zone_name rt data ttl priority
        comment false false =
        ⟨.ok { name := name, result := some true, comment := "",
               changes_new := none,
               changes_updated :=
                 some (Modules.recordApplyUpdate old data ttl priority comment) },
         { zones := st.zones,
           records := Modules.replaceRecord st.records zone_name old
             (Modules.recordApplyUpdate old data ttl priority comment) },
         [.recordUpdate zone_name]⟩ := by
      simp [States.dns_record_exists, hx, hbase, hneeds, hupd]
    exact ⟨by rw [hres], by rw [hres], by rw [hres]⟩

/-- The one-A-record state used by the C2 witness. -/
def stOneA : DnsState :=
  { zones := [{ name := "example.com", email := some "a@example.com",
                ttl := 300 }],
    records := [("example.com",
      { name := "host.example.com", rtype := "A", data := "1.1.1.1",
        ttl := 300, priority := none, comment := none })] }

/-- The existing record of stOneA. -/
def oldA : Record :=
  { name := "host.example.com", rtype := "A", data := "1.1.1.1", ttl := 300,
    priority := none, comment := none }

/-- Witness for C2_record_disambiguation: one existing A record with data
1.1.1.1, desired data 2.2.2.2, allow_multiple_records=false — the overwrite
branch runs with every hypothesis discharged concretely. -/
theorem C2_record_disambiguation_witness :
    (States.dns_record_exists stOneA "host.example.com" "example.com" "A"
        "2.2.2.2" none none none false false).out =
      .ok { name := "host.example.com", result := some true, comment := "",
            changes_new := none,
            changes_updated :=
              some (Modules.recordApplyUpdate oldA "2.2.2.2" none none none) } ∧
    (States.dns_record_exists stOneA "host.example.com" "example.com" "A"
        "2.2.2.2" none none none false false).st =
      { zones := stOneA.zones,
        records := Modules.replaceRecord stOneA.records "example.com" oldA
          (Modules.recordApplyUpdate oldA "2.2.2.2" none none none) } ∧
    (States.dns_record_exists stOneA "host.example.com" "example.com" "A"
        "2.2.2.2" none none none false false).muts =
      [.recordUpdate "example.com"] :=
  (C2_record_disambiguation stOneA
    { name := "example.com", email := some "a@example.com", ttl := 300 }
    "host.example.com" "example.com" "A" "2.2.2.2" none none none false oldA
    (by decide) (by decide) (by decide) (by decide)).2.2 (by decide) rfl

/-- dns_zone_create always succeeds and logs exactly one zoneCreate. -/
theorem dns_zone_create_cases (st : DnsState) (name : String)
    (email_address : Option String) (ttl : Option Int) :
    ∃ z st', Modules.dns_zone_create st name email_address ttl =
      ⟨.ok z, st', [.zoneCreate name]⟩ := by
  exact ⟨_, _, rfl⟩

/-- dns_zone_update either raises (leaving the state and trace untouched) or
performs exactly one zoneUpdate. -/
theorem dns_zone_update_cases (st : DnsState) (name : String)
    (kwE : Option (Option String)) (kwT : Option (Option Int))
    (kwC : Option (Option String)) :
    (∃ e, Modules.dns_zone_update st name kwE kwT kwC = ⟨.error e, st, []⟩) ∨
    (∃ z' st', Modules.dns_zone_update st name kwE kwT kwC =
      ⟨.ok z', st', [.zoneUpdate name]⟩) := by
  unfold Modules.dns_zone_update
  split
  · exact Or.inl ⟨_, rfl⟩
  · split
    · exact Or.inl ⟨_, rfl⟩
    · dsimp only
      split
      · exact Or.inl ⟨_, rfl⟩
      · exact Or.inr ⟨_, _, rfl⟩

/-- dns_record_create either raises (state and trace untouched) or performs
exactly one recordAdd. -/
theorem dns_record_create_cases (st : DnsState)
    (name zone_name record_type data : String) (ttl priority : Option Int)
    (comment : Option String) :
    (∃ e, Modules.dns_record_create st name zone_name record_type data ttl
        priority comment = ⟨.error e, st, []⟩) ∨
    (∃ rs st', Modules.dns_record_create st name zone_name record_type data ttl
        priority comment = ⟨.ok rs, st', [.recordAdd zone_name]⟩) := by
  unfold Modules.dns_record_create
  split
  · exact Or.inl ⟨_, rfl⟩
  · split
    · exact Or.inl ⟨_, rfl⟩
    · split
      · exact Or.inl ⟨_, rfl⟩
      · exact Or.inr ⟨_, _, rfl⟩

/-- dns_record_update either raises (state and trace untouched) or performs
exactly one recordUpdate. -/
theorem dns_record_update_cases (st : DnsState)
    (name zone_name record_type data : String) (ttl priority : Option Int)
    (comment : Option String) :
    (∃ e, Modules.dns_record_update st name zone_name record_type data ttl
        priority comment = ⟨.error e, st, []⟩) ∨
    (∃ r st', Modules.dns_record_update st name zone_name record_type data ttl
        priority comment = ⟨.ok r, st', [.recordUpdate zone_name]⟩) := by
  unfold Modules.dns_record_update
  split
  · exact Or.inl ⟨_, rfl⟩
  · exact Or.inl ⟨_, rfl⟩
  · exact Or.inr ⟨_, _, rfl⟩

/-- db_instance_create either raises a ValueError (state and trace untouched)
or performs exactly one instanceCreate. -/
theorem db_instance_create_cases (st : DbState) (name flavor : String)
    (size : Int) :
    (∃ msg, Modules.db_instance_create st name flavor size =
      ⟨.error (.valueErr msg), st, []⟩) ∨
    (∃ inst st', Modules.db_instance_create st name flavor size =
      ⟨.ok inst, st', [.instanceCreate name]⟩) := by
  unfold Modules.db_instance_create
  split
  · exact Or.inl ⟨_, rfl⟩
  · split
    · exact Or.inl ⟨_, rfl⟩
    · split
      · exact Or.inl ⟨_, rfl⟩
      · exact Or.inr ⟨_, _, rfl⟩

/-- Outcome invariant for the zone ensure function: changes.new and
changes.updated are never both set; a null result means no changes and no
mutation; a mutation implies result true with exactly one of the two change
keys; a true exact check means no change keys. -/
theorem zone_ensure_outcome_invariant (st : DnsState) (name : String)
    (em : Option String) (ttl : Option Int) (test : Bool)
    (ret : States.ZoneStateRet)
    (h : (States.dns_zone_exists st name em ttl test).out = .ok ret) :
    ¬(ret.changes_new ≠ none ∧ ret.changes_updated ≠ none) ∧
    (ret.result = none → ret.changes_new = none ∧ ret.changes_updated = none ∧
      (States.dns_zone_exists st name em ttl test).muts = []) ∧
    ((States.dns_zone_exists st name em ttl test).muts ≠ [] →
      ret.result = some true ∧
      (ret.changes_new ≠ none ↔ ret.changes_updated = none)) ∧
    ((Modules.dns_zone_exists st name (some em) (some ttl)).out = .ok true →
      ret.changes_new = none ∧ ret.changes_updated = none) := by
  cases h1 : (Modules.dns_zone_exists st name (some em) (some ttl)).out with
  | error e =>
    have hst : (Modules.dns_zone_exists st name (some em) (some ttl)).st = st := rfl
    have hmu : (Modules.dns_zone_exists st name (some em) (some ttl)).muts = [] := rfl
    have hres : States.dns_zone_exists st name em ttl test =
        ⟨.error e, st, []⟩ := by
      simp [States.dns_zone_exists, h1, hst, hmu]
    rw [hres] at h
    simp at h
  | ok b =>
    cases b with
    | true =>
      have hres : States.dns_zone_exists st name em ttl test =
          ⟨.ok { name := name, result := some true, comment := name ++ " exists",
                 changes_new := none, changes_updated := none }, st, []⟩ := by
        simp [States.dns_zone_exists, h1]
      rw [hres] at h
      have hret := (Except.ok.inj h).symm
      subst hret
      rw [hres]
      simp
    | false =>
      cases test with
      | true =>
        have hres : States.dns_zone_exists st name em ttl true =
            ⟨.ok { name := name, result := none,
                   comment := "DNS Zone " ++ name ++ " set to be created",
                   changes_new := none, changes_updated := none }, st, []⟩ := by
          simp [States.dns_zone_exists, h1]
        rw [hres] at h
        have hret := (Except.ok.inj h).symm
        subst hret
        rw [hres]
        refine ⟨by simp, by simp, by simp, ?_⟩
        intro h4
        simp [h1] at h4
      | false =>
        cases h2 : (Modules.dns_zone_exists st name none none).out with
        | error e =>
          have hst : (Modules.dns_zone_exists st name none none).st = st := rfl
          have hmu : (Modules.dns_zone_exists st name none none).muts = [] := rfl
          have hres : States.dns_zone_exists st name em ttl false =
              ⟨.error e, st, []⟩ := by
            simp [States.dns_zone_exists, h1, h2, hst, hmu]
          rw [hres] at h
          simp at h
        | ok b2 =>
          cases b2 with
          | false =>
            obtain ⟨z, st', hcre⟩ := dns_zone_create_cases st name em ttl
            have hres : States.dns_zone_exists st name em ttl false =
                ⟨.ok { name := name, result := some true, comment := "",
                       changes_new := some z, changes_updated := none },
                 st', [.zoneCreate name]⟩ := by
              simp [States.dns_zone_exists, h1, h2, hcre]
            rw [hres] at h
            have hret := (Except.ok.inj h).symm
            subst hret
            rw [hres]
            refine ⟨by simp, by simp, by simp, ?_⟩
            intro h4
            simp [h1] at h4
          | true =>
            rcases dns_zone_update_cases st name (some em) (some ttl) none with
              ⟨e, hu⟩ | ⟨z', st', hu⟩
            · have hres : States.dns_zone_exists st name em ttl false =
                  ⟨.error e, st, []⟩ := by
                simp [States.dns_zone_exists, h1, h2, hu]
              rw [hres] at h
              simp at h
            · have hres : States.dns_zone_exists st name em ttl false =
                  ⟨.ok { name := name, result := some true, comment := "",
                         changes_new := none, changes_updated := some z' },
                   st', [.zoneUpdate name]⟩ := by
                simp [States.dns_zone_exists, h1, h2, hu]
              rw [hres] at h
              have hret := (Except.ok.inj h).symm
              subst hret
              rw [hres]
              refine ⟨by simp, by simp, by simp, ?_⟩
              intro h4
              simp [h1] at h4

/-- Outcome invariant for the record ensure function (same shape as the zone
one, across its deeper branch cascade). -/
theorem record_ensure_outcome_invariant (st : DnsState)
    (name zone_name rt data : String) (ttl priority : Option Int)
    (comment : Option String) (amr : Bool) (test : Bool)
    (ret : States.RecordStateRet)
    (h : (States.dns_record_exists st name zone_name rt data ttl priority
        comment amr test).out = .ok ret) :
    ¬(ret.changes_new ≠ none ∧ ret.changes_updated ≠ none) ∧
    (ret.result = none → ret.changes_new = none ∧ ret.changes_updated = none ∧
      (States.dns_record_exists st name zone_name rt data ttl priority comment
        amr test).muts = []) ∧
    ((States.dns_record_exists st name zone_name rt data ttl priority comment
        amr test).muts ≠ [] →
      ret.result = some true ∧
      (ret.changes_new ≠ none ↔ ret.changes_updated = none)) ∧
    ((Modules.dns_record_exists st name zone_name rt (some data) ttl
        priority).out = .ok true →
      ret.changes_new = none ∧ ret.changes_updated = none) := by
  cases h1 : (Modules.dns_record_exists st name zone_name rt (some data) ttl
      priority).out with
  | error e =>
    have hst : (Modules.dns_record_exists st name zone_name rt (some data) ttl
        priority).st = st := rfl
    have hmu : (Modules.dns_record_exists st name zone_name rt (some data) ttl
        priority).muts = [] := rfl
    have hres : States.dns_record_exists st name zone_name rt data ttl priority
        comment amr test = ⟨.error e, st, []⟩ := by
      simp [States.dns_record_exists, h1, hst, hmu]
    rw [hres] at h
    simp at h
  | ok b =>
    cases b with
    | true =>
      have hres : States.dns_record_exists st name zone_name rt data ttl
          priority comment amr test =
          ⟨.ok { name := name, result := some true, comment := name ++ " exists",
                 changes_new := none, changes_updated := none }, st, []⟩ := by
        simp [States.dns_record_exists, h1]
      rw [hres] at h
      have hret := (Except.ok.inj h).symm
      subst hret
      rw [hres]
      simp
    | false =>
      cases test with
      | true =>
        have hres : States.dns_record_exists st name zone_name rt data ttl
            priority comment amr true =
            ⟨.ok { name := name, result := none,
                   comment := "DNS Record for " ++ name ++ " set to be created/updated",
                   changes_new := none, changes_updated := none }, st, []⟩ := by
          simp [States.dns_record_exists, h1]
        rw [hres] at h
        have hret := (Except.ok.inj h).symm
        subst hret
        rw [hres]
        refine ⟨by simp, by simp, by simp, ?_⟩
        intro h4
        simp [h1] at h4
      | false =>
        cases h2 : (Modules.dns_record_exists st name zone_name rt none none
            none).out with
        | error e =>
          have hst : (Modules.dns_record_exists st name zone_name rt none none
              none).st = st := rfl
          have hmu : (Modules.dns_record_exists st name zone_name rt none none
              none).muts = [] := rfl
          have hres : States.dns_record_exists st name zone_name rt data ttl
              priority comment amr false = ⟨.error e, st, []⟩ := by
            simp [States.dns_record_exists, h1, h2, hst, hmu]
          rw [hres] at h
          simp at h
        | ok b2 =>
          cases b2 with
          | false =>
            rcases dns_record_create_cases st name zone_name rt data (some 600)
                priority comment with ⟨e, hc⟩ | ⟨rs, st', hc⟩
            · have hres : States.dns_record_exists st name zone_name rt data ttl
                  priority comment amr false = ⟨.error e, st, []⟩ := by
                simp [States.dns_record_exists, h1, h2, hc]
              rw [hres] at h
              simp at h
            · have hres : States.dns_record_exists st name zone_name rt data ttl
                  priority comment amr false =
                  ⟨.ok { name := name, result := some true, comment := "",
                         changes_new := some rs, changes_updated := none },
                   st', [.recordAdd zone_name]⟩ := by
                simp [States.dns_record_exists, h1, h2, hc]
              rw [hres] at h
              have hret := (Except.ok.inj h).symm
              subst hret
              rw [hres]
              refine ⟨by simp, by simp, by simp, ?_⟩
              intro h4
              simp [h1] at h4
          | true =>
            cases h3 : (Modules.dns_record_exists st name zone_name rt
                (some data) none none).out with
            | error e =>
              have hst : (Modules.dns_record_exists st name zone_name rt
                  (some data) none none).st = st := rfl
              have hmu : (Modules.dns_record_exists st name zone_name rt
                  (some data) none none).muts = [] := rfl
              have hres : States.dns_record_exists st name zone_name rt data ttl
                  priority comment amr false = ⟨.error e, st, []⟩ := by
                simp [States.dns_record_exists, h1, h2, h3, hst, hmu]
              rw [hres] at h
              simp at h
            | ok b3 =>
              cases b3 with
              | true =>
                rcases dns_record_update_cases st name zone_name rt data ttl
                    priority comment with ⟨e, hu⟩ | ⟨r, st', hu⟩
                · have hres : States.dns_record_exists st name zone_name rt data
                      ttl priority comment amr false = ⟨.error e, st, []⟩ := by
                    simp [States.dns_record_exists, h1, h2, h3, hu]
                  rw [hres] at h
                  simp at h
                · have hres : States.dns_record_exists st name zone_name rt data
                      ttl priority comment amr false =
                      ⟨.ok { name := name, result := some true, comment := "",
                             changes_new := none, changes_updated := some r },
                       st', [.recordUpdate zone_name]⟩ := by
                    simp [States.dns_record_exists, h1, h2, h3, hu]
                  rw [hres] at h
                  have hret := (Except.ok.inj h).symm
                  subst hret
                  rw [hres]
                  refine ⟨by simp, by simp, by simp, ?_⟩
                  intro h4
                  simp [h1] at h4
              | false =>
                cases amr with
                | true =>
                  rcases dns_record_create_cases st name zone_name rt data
                      (some 600) priority comment with ⟨e, hc⟩ | ⟨rs, st', hc⟩
                  · have hres : States.dns_record_exists st name zone_name rt
                        data ttl priority comment true false =
                        ⟨.error e, st, []⟩ := by
                      simp [States.dns_record_exists, h1, h2, h3, hc]
                    rw [hres] at h
                    simp at h
                  · have hres : States.dns_record_exists st name zone_name rt
                        data ttl priority comment true false =
                        ⟨.ok { name := name, result := some true, comment := "",
                               changes_new := some rs, changes_updated := none },
                         st', [.recordAdd zone_name]⟩ := by
                      simp [States.dns_record_exists, h1, h2, h3, hc]
                    rw [hres] at h
                    have hret := (Except.ok.inj h).symm
                    subst hret
                    rw [hres]
                    refine ⟨by simp, by simp, by simp, ?_⟩
                    intro h4
                    simp [h1] at h4
                | false =>
                  rcases dns_record_update_cases st name zone_name rt data ttl
                      priority comment with ⟨e, hu⟩ | ⟨r, st', hu⟩
                  · have hres : States.dns_record_exists st name zone_name rt
                        data ttl priority comment false false =
                        ⟨.error e, st, []⟩ := by
                      simp [States.dns_record_exists, h1, h2, h3, hu]
                    rw [hres] at h
                    simp at h
                  · have hres : States.dns_record_exists st name zone_name rt
                        data ttl priority comment false false =
                        ⟨.ok { name := name, result := some true, comment := "",
                               changes_new := none, changes_updated := some r },
                         st', [.recordUpdate zone_name]⟩ := by
                      simp [States.dns_record_exists, h1, h2, h3, hu]
                    rw [hres] at h
                    have hret := (Except.ok.inj h).symm
                    subst hret
                    rw [hres]
                    refine ⟨by simp, by simp, by simp, ?_⟩
                    intro h4
                    simp [h1] at h4

/-- Outcome invariant for the db-instance ensure function. -/
theorem db_ensure_outcome_invariant (st : DbState) (name flavor : String)
    (size : Int) (test : Bool) (ret : States.DbStateRet)
    (h : (States.db_instance_exists st name flavor size test).out = .ok ret) :
    ¬(ret.changes_new ≠ none ∧ ret.changes_updated ≠ none) ∧
    (ret.result = none → ret.changes_new = none ∧ ret.changes_updated = none ∧
      (States.db_instance_exists st name flavor size test).muts = []) ∧
    ((States.db_instance_exists st name flavor size test).muts ≠ [] →
      ret.result = some true ∧
      (ret.changes_new ≠ none ↔ ret.changes_updated = none)) ∧
    (Modules.db_instance_exists st name = true →
      ret.changes_new = none ∧ ret.changes_updated = none) := by
  cases hx : Modules.db_instance_exists st name with
  | true =>
    have hres : States.db_instance_exists st name flavor size test =
        ⟨.ok { name := name, result := some true, comment := name ++ " exists",
               changes_new := none, changes_updated := none }, st, []⟩ := by
      simp [States.db_instance_exists, hx]
    rw [hres] at h
    have hret := (Except.ok.inj h).symm
    subst hret
    rw [hres]
    simp
  | false =>
    cases test with
    | true =>
      have hres : States.db_instance_exists st name flavor size true =
          ⟨.ok { name := name, result := none,
                 comment := "DB instance " ++ name ++ " set to be created",
                 changes_new := none, changes_updated := none }, st, []⟩ := by
        simp [States.db_instance_exists, hx]
      rw [hres] at h
      have hret := (Except.ok.inj h).symm
      subst hret
      rw [hres]
      refine ⟨by simp, by simp, by simp, ?_⟩
      intro h4
      simp [hx] at h4
    | false =>
      rcases db_instance_create_cases st name flavor size with
        ⟨msg, hc⟩ | ⟨inst, st', hc⟩
      · have hres : States.db_instance_exists st name flavor size false =
            ⟨.ok { name := name, result := some false,
                   comment := "Unable to create: " ++ msg,
                   changes_new := none, changes_updated := none }, st, []⟩ := by
          simp [States.db_instance_exists, hx, hc]
        rw [hres] at h
        have hret := (Except.ok.inj h).symm
        subst hret
        rw [hres]
        refine ⟨by simp, by simp, by simp, ?_⟩
        intro h4
        simp [hx] at h4
      · have hres : States.db_instance_exists st name flavor size false =
            ⟨.ok { name := name, result := some true, comment := "",
                   changes_new := some inst, changes_updated := none },
             st', [.instanceCreate name]⟩ := by
          simp [States.db_instance_exists, hx, hc]
        rw [hres] at h
        have hret := (Except.ok.inj h).symm
        subst hret
        rw [hres]
        refine ⟨by simp, by simp, by simp, ?_⟩
        intro h4
        simp [hx] at h4

/-- Claim C9: across the zone, record and db-instance ensure functions, every
successfully returned outcome satisfies the envelope invariant: changes.new
and changes.updated are never both populated; result null implies empty
changes and that no mutating call was attempted; a mutation implies result
true with exactly one of the two change keys; and a resource that already
matched the desired state (exact check true) yields both keys absent. -/
theorem C9_outcome_invariant :
    (∀ (st : DnsState) (name : String) (em : Option String) (ttl : Option Int)
        (test : Bool) (ret : States.ZoneStateRet),
      (States.dns_zone_exists st name em ttl test).out = .ok ret →
      ¬(ret.changes_new ≠ none ∧ ret.changes_updated ≠ none) ∧
      (ret.result = none → ret.changes_new = none ∧
        ret.changes_updated = none ∧
        (States.dns_zone_exists st name em ttl test).muts = []) ∧
      ((States.dns_zone_exists st name em ttl test).muts ≠ [] →
        ret.result = some true ∧
        (ret.changes_new ≠ none ↔ ret.changes_updated = none)) ∧
      ((Modules.dns_zone_exists st name (some em) (some ttl)).out = .ok true →
        ret.changes_new = none ∧ ret.changes_updated = none)) ∧
    (∀ (st : DnsState) (name zone_name rt data : String)
        (ttl priority : Option Int) (comment : Option String)
        (amr test : Bool) (ret : States.RecordStateRet),
      (States.dns_record_exists st name zone_name rt data ttl priority comment
        amr test).out = .ok ret →
      ¬(ret.changes_new ≠ none ∧ ret.changes_updated ≠ none) ∧
      (ret.result = none → ret.changes_new = none ∧
        ret.changes_updated = none ∧
        (States.dns_record_exists st name zone_name rt data ttl priority
          comment amr test).muts = []) ∧
      ((States.dns_record_exists st name zone_name rt data ttl priority comment
          amr test).muts ≠ [] →
        ret.result = some true ∧
        (ret.changes_new ≠ none ↔ ret.changes_updated = none)) ∧
      ((Modules.dns_record_exists st name zone_name rt (some data) ttl
          priority).out = .ok true →
        ret.changes_new = none ∧ ret.changes_updated = none)) ∧
    (∀ (st : DbState) (name flavor : String) (size : Int) (test : Bool)
        (ret : States.DbStateRet),
      (States.db_instance_exists st name flavor size test).out = .ok ret →
      ¬(ret.changes_new ≠ none ∧ ret.changes_updated ≠ none) ∧
      (ret.result = none → ret.changes_new = none ∧
        ret.changes_updated = none ∧
        (States.db_instance_exists st name flavor size test).muts = []) ∧
      ((States.db_instance_exists st name flavor size test).muts ≠ [] →
        ret.result = some true ∧
        (ret.changes_new ≠ none ↔ ret.changes_updated = none)) ∧
      (Modules.db_instance_exists st name = true →
        ret.changes_new = none ∧ ret.changes_updated = none)) :=
  ⟨fun st name em ttl test ret h =>
     zone_ensure_outcome_invariant st name em ttl test ret h,
   fun st name zone_name rt data ttl priority comment amr test ret h =>
     record_ensure_outcome_invariant st name zone_name rt data ttl priority
       comment amr test ret h,
   fun st name flavor size test ret h =>
     db_ensure_outcome_invariant st name flavor size test ret h⟩

/-- Witness for C9_outcome_invariant: the zone part applied to the matching
concrete call (exists outcome). -/
theorem C9_outcome_invariant_witness :
    ¬((States.ZoneStateRet.mk "example.com" (some true) ("example.com" ++ " exists")
        none none).changes_new ≠ none ∧
      (States.ZoneStateRet.mk "example.com" (some true) ("example.com" ++ " exists")
        none none).changes_updated ≠ none) ∧
    ((States.ZoneStateRet.mk "example.com" (some true) ("example.com" ++ " exists")
        none none).result = none →
      (States.ZoneStateRet.mk "example.com" (some true) ("example.com" ++ " exists")
        none none).changes_new = none ∧
      (States.ZoneStateRet.mk "example.com" (some true) ("example.com" ++ " exists")
        none none).changes_updated = none ∧
      (States.dns_zone_exists stZone "example.com" (some "a@example.com")
        (some 300) false).muts = []) ∧
    ((States.dns_zone_exists stZone "example.com" (some "a@example.com")
        (some 300) false).muts ≠ [] →
      (States.ZoneStateRet.mk "example.com" (some true) ("example.com" ++ " exists")
        none none).result = some true ∧
      ((States.ZoneStateRet.mk "example.com" (some true) ("example.com" ++ " exists")
        none none).changes_new ≠ none ↔
       (States.ZoneStateRet.mk "example.com" (some true) ("example.com" ++ " exists")
        none none).changes_updated = none)) ∧
    ((Modules.dns_zone_exists stZone "example.com" (some (some "a@example.com"))
        (some (some 300))).out = .ok true →
      (States.ZoneStateRet.mk "example.com" (some true) ("example.com" ++ " exists")
        none none).changes_new = none ∧
      (States.ZoneStateRet.mk "example.com" (some true) ("example.com" ++ " exists")
        none none).changes_updated = none) :=
  C9_outcome_invariant.1 stZone "example.com" (some "a@example.com") (some 300)
    false
    (States.ZoneStateRet.mk "example.com" (some true) ("example.com" ++ " exists")
      none none)
    (by decide)

/-- Claim C6: with the dry-run flag set and the resource not already matching
the desired state (the exact existence check returns False), both the zone
and the record ensure functions return result null, make no mutating
accessor call, and leave the provider state unchanged. -/
theorem C6_dry_run_purity (st : DnsState) (zname rname zone_name rt rdata : String)
    (em : Option String) (zttl rttl rpriority : Option Int)
    (comment : Option String) (amr : Bool)
    (hz : (Modules.dns_zone_exists st zname (some em) (some zttl)).out = .ok false)
    (hr : (Modules.dns_record_exists st rname zone_name rt (some rdata) rttl
            rpriority).out = .ok false) :
    ((States.dns_zone_exists st zname em zttl true).out =
        .ok { name := zname, result := none,
              comment := "DNS Zone " ++ zname ++ " set to be created",
              changes_new := none, changes_updated := none } ∧
      (States.dns_zone_exists st zname em zttl true).st = st ∧
      (States.dns_zone_exists st zname em zttl true).muts = []) ∧
    ((States.dns_record_exists st rname zone_name rt rdata rttl rpriority
        comment amr true).out =
        .ok { name := rname, result := none,
              comment := "DNS Record for " ++ rname ++ " set to be created/updated",
              changes_new := none, changes_updated := none } ∧
      (States.dns_record_exists st rname zone_name rt rdata rttl rpriority
        comment amr true).st = st ∧
      (States.dns_record_exists st rname zone_name rt rdata rttl rpriority
        comment amr true).muts = []) := by
  constructor
  · simp only [States.dns_zone_exists, hz]
    simp
  · simp only [States.dns_record_exists, hr]
    simp

/-- Witness for C6_dry_run_purity on the empty provider state. -/
theorem C6_dry_run_purity_witness :
    ((States.dns_zone_exists stEmpty "example.com" (some "a@example.com")
        (some 600) true).out =
        .ok { name := "example.com", result := none,
              comment := "DNS Zone " ++ "example.com" ++ " set to be created",
              changes_new := none, changes_updated := none } ∧
      (States.dns_zone_exists stEmpty "example.com" (some "a@example.com")
        (some 600) true).st = stEmpty ∧
      (States.dns_zone_exists stEmpty "example.com" (some "a@example.com")
        (some 600) true).muts = []) ∧
    ((States.dns_record_exists stEmpty "h.example.com" "example.com" "A" "1.2.3.4"
        none none none false true).out =
        .ok { name := "h.example.com", result := none,
              comment := "DNS Record for " ++ "h.example.com" ++ " set to be created/updated",
              changes_new := none, changes_updated := none } ∧
      (States.dns_record_exists stEmpty "h.example.com" "example.com" "A" "1.2.3.4"
        none none none false true).st = stEmpty ∧
      (States.dns_record_exists stEmpty "h.example.com" "example.com" "A" "1.2.3.4"
        none none none false true).muts = []) :=
  C6_dry_run_purity stEmpty "example.com" "h.example.com" "example.com" "A"
    "1.2.3.4" (some "a@example.com") (some 600) none none none false
    (by decide) (by decide)

/-- Claim C7 counterexample: the "second of two successive ensure calls with
identical desired state" instance fails when the desired ttl is left None.
On the empty state, ensuring zone example.com with email a@example.com and
ttl None succeeds (creates the zone, provider assigns its default ttl); the
identical second call does not return the "exists" outcome: the module's
exists check compares the stored integer ttl against None and fails, and the
subsequent update call raises ValueError (Python 2: None < 300), so the
second call raises instead of reporting result true with empty changes. -/
theorem C7_second_call_not_idempotent :
    (States.dns_zone_exists stEmpty "example.com" (some "a@example.com")
        none false).out =
      .ok { name := "example.com", result := some true, comment := "",
            changes_new := some { name := "example.com",
                                  email := some "a@example.com", ttl := 3600 },
            changes_updated := none } ∧
    (States.dns_zone_exists
        (States.dns_zone_exists stEmpty "example.com" (some "a@example.com")
          none false).st
        "example.com" (some "a@example.com") none false).out =
      .error (.valueErr "ttl has a minimum value of 300") ∧
    (States.dns_zone_exists
        (States.dns_zone_exists stEmpty "example.com" (some "a@example.com")
          none false).st
        "example.com" (some "a@example.com") none false).muts = [] := by
  decide

/-- Claim C7 amended: whenever the full-filter existence check returns true,
the zone ensure performs no mutating call and returns result true, comment
"<name> exists", and empty changes (this also covers the second of two
successive identical calls when every desired field is explicitly supplied
with a valid value; with a field left None the exists check never matches,
so the second call takes the update path instead). -/
theorem C7_ensure_idempotent_when_matching (st : DnsState) (name : String)
    (email_address : Option String) (ttl : Option Int) (test : Bool)
    (h : (Modules.dns_zone_exists st name (some email_address)
          (some ttl)).out = .ok true) :
    (States.dns_zone_exists st name email_address ttl test).out =
      .ok { name := name, result := some true, comment := name ++ " exists",
            changes_new := none, changes_updated := none } ∧
    (States.dns_zone_exists st name email_address ttl test).st = st ∧
    (States.dns_zone_exists st name email_address ttl test).muts = [] := by
  simp only [States.dns_zone_exists, h]
  simp

/-- Witness for C7_ensure_idempotent_when_matching on a matching zone. -/
theorem C7_ensure_idempotent_when_matching_witness :
    (States.dns_zone_exists stZone "example.com" (some "a@example.com")
        (some 300) false).out =
      .ok { name := "example.com", result := some true,
            comment := "example.com" ++ " exists",
            changes_new := none, changes_updated := none } ∧
    (States.dns_zone_exists stZone "example.com" (some "a@example.com")
        (some 300) false).st = stZone ∧
    (States.dns_zone_exists stZone "example.com" (some "a@example.com")
        (some 300) false).muts = [] :=
  C7_ensure_idempotent_when_matching stZone "example.com"
    (some "a@example.com") (some 300) false (by decide)

/-- Claim C8: each exists operation (zone, record, container) turns the
provider's "not found" lookup failure into an ok false result, and
propagates every other lookup failure unchanged to the caller; the cores are
exactly the try/except bodies of the three module functions. -/
theorem C8_exists_catches_only_not_found (e : PErr) (he : e ≠ .notFound)
    (kw_email : Option (Option String)) (kw_ttl : Option (Option Int))
    (record_type : String) (ttl priority : Option Int)
    (cdn_enabled : Option Bool) (cttl : Option Int) :
    (Modules.dns_zone_exists_core (.error .notFound) kw_email kw_ttl =
        .ok false ∧
      Modules.dns_zone_exists_core (.error e) kw_email kw_ttl = .error e) ∧
    (Modules.dns_record_exists_core (.error .notFound) record_type ttl priority =
        .ok false ∧
      Modules.dns_record_exists_core (.error e) record_type ttl priority =
        .error e) ∧
    (Modules.cf_container_exists_core (.error .notFound) cdn_enabled cttl =
        .ok false ∧
      Modules.cf_container_exists_core (.error e) cdn_enabled cttl = .error e) := by
  cases e <;>
    simp_all [Modules.dns_zone_exists_core, Modules.dns_record_exists_core,
      Modules.cf_container_exists_core]

/-- Witness for C8_exists_catches_only_not_found at a concrete client
failure. -/
theorem C8_exists_catches_only_not_found_witness :
    (Modules.dns_zone_exists_core (.error .notFound) none none = .ok false ∧
      Modules.dns_zone_exists_core (.error (.clientErr "boom")) none none =
        .error (.clientErr "boom")) ∧
    (Modules.dns_record_exists_core (.error .notFound) "A" none none =
        .ok false ∧
      Modules.dns_record_exists_core (.error (.clientErr "boom")) "A" none none =
        .error (.clientErr "boom")) ∧
    (Modules.cf_container_exists_core (.error .notFound) none none = .ok false ∧
      Modules.cf_container_exists_core (.error (.clientErr "boom")) none none =
        .error (.clientErr "boom")) :=
  C8_exists_catches_only_not_found (.clientErr "boom") (by decide)
    none none "A" none none none none

end Rackspace
